import Mathlib

/-!
# Verification of the states-of-matter-basics molecular-dynamics model

Shallow embedding of the engine code of the `states-of-matter-basics`
repository:

* `MoleculeForceAndMotionDataSet` and its operations `addMolecule`,
  `removeMolecule`, `calculateTemperatureFromKineticEnergy`
  (file `src/unnamed/part_001`);
* the Verlet-calculator operations `calculateWallForce`,
  `updateMoleculeSafety`, `updatePressure`
  (file `src/js/model/AbstractVerletAlgorithm.js`);
* the orchestrator operations `setTemperature`,
  `setGravitationalAcceleration`, `runThermostat`, `injectMolecule`
  (file `src/js/model/MultipleParticleModel.js`).

JavaScript numbers are modelled as rationals (`ℚ`); counts and indices are
naturals (`ℕ`).  The source's mutable arrays are modelled as total functions
`ℕ → α`: every array write performed by the embedded operations happens at an
index the code has previously filled, so the extra totality never decides a
branch.  A JavaScript division whose denominator is zero produces a
non-finite value (`NaN` or `±Infinity`), which `ℚ` cannot represent; where
such a division can actually occur the embedding returns `Option ℚ`, with
`none` standing for the non-finite result (`jsDiv`).
-/

/-- A 2-D vector, mirroring DOT/Vector2 as used by the model code. -/
structure Vec2 where
  x : ℚ
  y : ℚ
deriving DecidableEq, Repr

/-- The molecule data set from `src/unnamed/part_001`
(`MoleculeForceAndMotionDataSet`).  Arrays are total functions from indices;
`moleculeMass` and `moleculeRotationalInertia` are the species-derived
constants set by the constructor. -/
structure MoleculeForceAndMotionDataSet where
  atomsPerMolecule : ℕ
  numberOfAtoms : ℕ
  numberOfSafeMolecules : ℕ
  atomPositions : ℕ → Vec2
  moleculeCenterOfMassPositions : ℕ → Vec2
  moleculeVelocities : ℕ → Vec2
  moleculeForces : ℕ → Vec2
  nextMoleculeForces : ℕ → Vec2
  moleculeRotationAngles : ℕ → ℚ
  moleculeRotationRates : ℕ → ℚ
  moleculeTorques : ℕ → ℚ
  nextMoleculeTorques : ℕ → ℚ
  moleculeMass : ℚ
  moleculeRotationalInertia : ℚ

namespace MoleculeForceAndMotionDataSet

/-- `getNumberOfMolecules` from `src/unnamed/part_001`:
`this.numberOfAtoms / this.atomsPerMolecule`.  On states satisfying the
data-set invariant the division is exact, so natural division coincides with
the JavaScript real division. -/
def getNumberOfMolecules (ds : MoleculeForceAndMotionDataSet) : ℕ :=
  ds.numberOfAtoms / ds.atomsPerMolecule

/-- `getNumberOfRemainingSlots` from `src/unnamed/part_001`.  The constant
`StatesOfMatterConstants.MAX_NUM_ATOMS` is defined in a file that is not part
of the provided sources, so the capacity is taken as a parameter
`MAX_NUM_ATOMS`; every theorem below holds for all values of it. -/
def getNumberOfRemainingSlots (MAX_NUM_ATOMS : ℕ)
    (ds : MoleculeForceAndMotionDataSet) : ℕ :=
  MAX_NUM_ATOMS / ds.atomsPerMolecule - ds.numberOfAtoms / ds.atomsPerMolecule

/-- `addMolecule` from `src/unnamed/part_001`, lines 120-148.  Returns the
boolean result together with the updated data set.  When no capacity
remains the method returns `false` before touching any field.  Otherwise it
copies the `atomsPerMolecule` incoming atom positions to the end of
`atomPositions`, stores the centre of mass, velocity and rotation rate at
index `numberOfMolecules`, allocates zero force vectors there, and increments
`numberOfAtoms` by `atomsPerMolecule`; `numberOfSafeMolecules` is not
touched. -/
def addMolecule (MAX_NUM_ATOMS : ℕ) (ds : MoleculeForceAndMotionDataSet)
    (atomPositions : ℕ → Vec2) (moleculeCenterOfMassPosition : Vec2)
    (moleculeVelocity : Vec2) (moleculeRotationRate : ℚ) :
    Bool × MoleculeForceAndMotionDataSet :=
  if getNumberOfRemainingSlots MAX_NUM_ATOMS ds = 0 then
    (false, ds)
  else
    let numberOfMolecules := ds.numberOfAtoms / ds.atomsPerMolecule
    (true,
      { ds with
        atomPositions := fun k =>
          if ds.numberOfAtoms ≤ k ∧ k < ds.numberOfAtoms + ds.atomsPerMolecule
          then atomPositions (k - ds.numberOfAtoms)
          else ds.atomPositions k
        moleculeCenterOfMassPositions := fun k =>
          if k = numberOfMolecules then moleculeCenterOfMassPosition
          else ds.moleculeCenterOfMassPositions k
        moleculeVelocities := fun k =>
          if k = numberOfMolecules then moleculeVelocity
          else ds.moleculeVelocities k
        moleculeRotationRates := fun k =>
          if k = numberOfMolecules then moleculeRotationRate
          else ds.moleculeRotationRates k
        moleculeForces := fun k =>
          if k = numberOfMolecules then ⟨0, 0⟩ else ds.moleculeForces k
        nextMoleculeForces := fun k =>
          if k = numberOfMolecules then ⟨0, 0⟩ else ds.nextMoleculeForces k
        numberOfAtoms := ds.numberOfAtoms + ds.atomsPerMolecule })

/-- `removeMolecule` from `src/unnamed/part_001`, lines 161-189.  Out-of-range
indices are ignored.  Otherwise every per-molecule array is shifted left by
one slot from `moleculeIndex` on, the per-atom array is shifted left by one
`atomsPerMolecule`-wide block, and `numberOfAtoms` drops by
`atomsPerMolecule`.  The sequential shift loops of the source read each slot
before it is overwritten, so they equal the simultaneous shifts used here.
Note that the source does not modify `numberOfSafeMolecules`. -/
def removeMolecule (ds : MoleculeForceAndMotionDataSet) (moleculeIndex : ℕ) :
    MoleculeForceAndMotionDataSet :=
  if moleculeIndex ≥ ds.numberOfAtoms / ds.atomsPerMolecule then
    ds
  else
    let n := ds.numberOfAtoms / ds.atomsPerMolecule
    let shiftMolQ : (ℕ → ℚ) → (ℕ → ℚ) := fun a k =>
      if moleculeIndex ≤ k ∧ k < n - 1 then a (k + 1) else a k
    let shiftMolV : (ℕ → Vec2) → (ℕ → Vec2) := fun a k =>
      if moleculeIndex ≤ k ∧ k < n - 1 then a (k + 1) else a k
    { ds with
      moleculeCenterOfMassPositions := shiftMolV ds.moleculeCenterOfMassPositions
      moleculeVelocities := shiftMolV ds.moleculeVelocities
      moleculeForces := shiftMolV ds.moleculeForces
      nextMoleculeForces := shiftMolV ds.nextMoleculeForces
      moleculeRotationAngles := shiftMolQ ds.moleculeRotationAngles
      moleculeRotationRates := shiftMolQ ds.moleculeRotationRates
      moleculeTorques := shiftMolQ ds.moleculeTorques
      nextMoleculeTorques := shiftMolQ ds.nextMoleculeTorques
      atomPositions := fun k =>
        if moleculeIndex * ds.atomsPerMolecule ≤ k ∧
            k < ds.numberOfAtoms - ds.atomsPerMolecule
        then ds.atomPositions (k + ds.atomsPerMolecule)
        else ds.atomPositions k
      numberOfAtoms := ds.numberOfAtoms - ds.atomsPerMolecule }

/-- JavaScript division as used by the temperature calculation: a zero
denominator yields a non-finite number (`NaN` when the numerator is also
zero), represented here by `none`. -/
def jsDiv (a b : ℚ) : Option ℚ :=
  if b = 0 then none else some (a / b)

/-- `calculateTemperatureFromKineticEnergy` from `src/unnamed/part_001`,
lines 81-105.  For the monatomic case it divides the summed translational
kinetic energy by `numberOfAtoms`; for the polyatomic case it divides the
summed translational and rotational kinetic energy by the molecule count and
then by 1.5.  Both divisions go through `jsDiv`, since the source performs
them even when the count is zero. -/
def calculateTemperatureFromKineticEnergy
    (ds : MoleculeForceAndMotionDataSet) : Option ℚ :=
  let numberOfMolecules := ds.numberOfAtoms / ds.atomsPerMolecule
  if ds.atomsPerMolecule = 1 then
    let translationalKineticEnergy :=
      ((List.range ds.numberOfAtoms).map (fun i =>
        ((ds.moleculeVelocities i).x * (ds.moleculeVelocities i).x +
         (ds.moleculeVelocities i).y * (ds.moleculeVelocities i).y) / 2)).sum
    jsDiv translationalKineticEnergy (ds.numberOfAtoms : ℚ)
  else
    let translationalKineticEnergy :=
      ((List.range numberOfMolecules).map (fun i =>
        (1/2 : ℚ) * ds.moleculeMass *
          ((ds.moleculeVelocities i).x ^ 2 + (ds.moleculeVelocities i).y ^ 2))).sum
    let rotationalKineticEnergy :=
      ((List.range numberOfMolecules).map (fun i =>
        (1/2 : ℚ) * ds.moleculeRotationalInertia *
          (ds.moleculeRotationRates i) ^ 2)).sum
    (jsDiv (translationalKineticEnergy + rotationalKineticEnergy)
        (numberOfMolecules : ℚ)).bind (fun x => jsDiv x (3/2))

/-- The data-set invariant stated in the specification:
`numberOfAtoms = atomsPerMolecule × numberOfMolecules` and
`0 ≤ numberOfSafeMolecules ≤ numberOfMolecules` (the lower bound is inherent
in `ℕ`), together with the constructor guarantee `atomsPerMolecule ≥ 1`. -/
def Invariant (ds : MoleculeForceAndMotionDataSet) : Prop :=
  0 < ds.atomsPerMolecule ∧
  ds.numberOfAtoms = ds.atomsPerMolecule * ds.getNumberOfMolecules ∧
  ds.numberOfSafeMolecules ≤ ds.getNumberOfMolecules

instance (ds : MoleculeForceAndMotionDataSet) : Decidable ds.Invariant := by
  unfold Invariant
  infer_instance

end MoleculeForceAndMotionDataSet

/-! ## The abstract Verlet algorithm (`src/js/model/AbstractVerletAlgorithm.js`) -/

namespace AbstractVerletAlgorithm

open MoleculeForceAndMotionDataSet

/-- `WALL_DISTANCE_THRESHOLD = 1.122462048309373017` (source line 25). -/
def WALL_DISTANCE_THRESHOLD : ℚ := 1122462048309373017 / 1000000000000000000

/-- The local `minDistance = WALL_DISTANCE_THRESHOLD * 0.8` computed at the
top of `calculateWallForce` (source line 80). -/
def MIN_WALL_DISTANCE : ℚ := WALL_DISTANCE_THRESHOLD * (8 / 10)

/-- `PRESSURE_CALC_WEIGHTING = 0.999` (source line 24). -/
def PRESSURE_CALC_WEIGHTING : ℚ := 999 / 1000

/-- `SAFE_INTER_MOLECULE_DISTANCE = 2.0` (source line 26). -/
def SAFE_INTER_MOLECULE_DISTANCE : ℚ := 2

/-- `EXPLOSION_PRESSURE = 1.05` (source line 40). -/
def EXPLOSION_PRESSURE : ℚ := 105 / 100

/-- The truncated Lennard-Jones wall force `48/d¹³ − 24/d⁷` used for every
wall in `calculateWallForce`. -/
def ljWallForce (d : ℚ) : ℚ := 48 / d ^ 13 - 24 / d ^ 7

/-- The matching potential-energy contribution `4/d¹² − 4/d⁶ + 1`. -/
def ljWallPotential (d : ℚ) : ℚ := 4 / d ^ 12 - 4 / d ^ 6 + 1

/-- Result of the horizontal (left/right wall) part of `calculateWallForce`:
the x-component of the resulting force, the accumulated potential energy,
and the final value of the mutable local `xPos`.  In the source the local
`xPos` can be assigned `Number.POSITIVE_INFINITY` (lines 92 and 110); that
state is tracked by `xPosIsInfinite`, in which case the recorded rational
`xPos` is ignored by later comparisons. -/
structure XPartResult where
  forceX : ℚ
  potentialEnergy : ℚ
  xPos : ℚ
  xPosIsInfinite : Bool
deriving DecidableEq, Repr

/-- Lines 83-119 of `calculateWallForce`: the force in the X direction.  The
whole block is guarded by `yPos < this.model.normalizedContainerWidth` (note:
the source compares against the container *width*).  In the left-wall branch,
when the particle is outside an exploded container `xPos` becomes `+∞`; the
JavaScript expressions `48/∞¹³ − 24/∞⁷` and `4/∞¹² − 4/∞⁶ + 1` evaluate to
`0` and `1`, which is what this embedding uses.  In the right-wall branch the
source sets `xPos` (not `distance`) to `+∞`, so the force is computed from
the unclamped negative `distance`. -/
def calculateWallForceX (xPos yPos containerWidth normalizedContainerWidth : ℚ)
    (isExploded : Bool) (forceX potentialEnergy : ℚ) : XPartResult :=
  if yPos < normalizedContainerWidth then
    if xPos < WALL_DISTANCE_THRESHOLD then
      -- Close enough to the left wall to feel the force.
      if xPos < MIN_WALL_DISTANCE then
        if xPos < 0 ∧ isExploded = true then
          ⟨0, potentialEnergy + 1, xPos, true⟩
        else
          ⟨ljWallForce MIN_WALL_DISTANCE,
           potentialEnergy + ljWallPotential MIN_WALL_DISTANCE,
           MIN_WALL_DISTANCE, false⟩
      else
        ⟨ljWallForce xPos, potentialEnergy + ljWallPotential xPos, xPos, false⟩
    else if containerWidth - xPos < WALL_DISTANCE_THRESHOLD then
      -- Close enough to the right wall to feel the force.
      let distance := containerWidth - xPos
      if distance < MIN_WALL_DISTANCE then
        if distance < 0 ∧ isExploded = true then
          ⟨-ljWallForce distance, potentialEnergy + ljWallPotential distance,
           xPos, true⟩
        else
          ⟨-ljWallForce MIN_WALL_DISTANCE,
           potentialEnergy + ljWallPotential MIN_WALL_DISTANCE, xPos, false⟩
      else
        ⟨-ljWallForce distance, potentialEnergy + ljWallPotential distance,
         xPos, false⟩
    else
      ⟨forceX, potentialEnergy, xPos, false⟩
  else
    ⟨forceX, potentialEnergy, xPos, false⟩

/-- Result of the vertical part of `calculateWallForce` together with the
possibly updated explosion flag. -/
structure YPartResult where
  forceY : ℚ
  potentialEnergy : ℚ
  isExploded : Bool
deriving DecidableEq, Repr

/-- Lines 121-148 of `calculateWallForce`: the force in the Y direction.
`xPos`/`xPosIsInfinite` is the final state of the local `xPos` after the X
block (with `+∞ > 0` true and `+∞ < containerWidth` false).  If the particle
is below `y = 0` and the container has not exploded, `explodeContainer()` is
called, and the bottom-wall force condition reads the updated flag. -/
def calculateWallForceY (xPos : ℚ) (xPosIsInfinite : Bool)
    (yPos containerWidth containerHeight : ℚ) (isExploded : Bool)
    (forceY potentialEnergy : ℚ) : YPartResult :=
  if yPos < WALL_DISTANCE_THRESHOLD then
    -- Close enough to the bottom wall to feel the force.
    let isExploded2 :=
      if yPos < MIN_WALL_DISTANCE ∧ yPos < 0 ∧ isExploded = false then true
      else isExploded
    let yPos2 := if yPos < MIN_WALL_DISTANCE then MIN_WALL_DISTANCE else yPos
    let xInside : Prop :=
      xPosIsInfinite = false ∧ 0 < xPos ∧ xPos < containerWidth
    if isExploded2 = false ∨ xInside then
      ⟨ljWallForce yPos2, potentialEnergy + ljWallPotential yPos2, isExploded2⟩
    else
      ⟨forceY, potentialEnergy, isExploded2⟩
  else if containerHeight - yPos < WALL_DISTANCE_THRESHOLD ∧ isExploded = false then
    -- Close enough to the top to feel the force.
    let distance := containerHeight - yPos
    let distance2 := if distance < MIN_WALL_DISTANCE then MIN_WALL_DISTANCE
                     else distance
    ⟨-ljWallForce distance2, potentialEnergy + ljWallPotential distance2,
     isExploded⟩
  else
    ⟨forceY, potentialEnergy, isExploded⟩

/-- Overall result of `calculateWallForce`: the resultant force vector, the
calculator's accumulated potential energy and the model's explosion flag. -/
structure WallForceResult where
  resultantForce : Vec2
  potentialEnergy : ℚ
  isExploded : Bool
deriving DecidableEq, Repr

/-- `calculateWallForce` (source lines 66-149).  Inputs: the particle
position, container width/height, the passed-in `resultantForce` vector
(whose components persist when not overwritten), the model's
`normalizedContainerWidth` and `isExploded` flag, and the calculator's
running `potentialEnergy`.  `explodeContainer`, defined outside the provided
sources, sets the model's explosion flag (per the specification: "the
container transitions to exploded"). -/
def calculateWallForce (position : Vec2) (containerWidth containerHeight : ℚ)
    (resultantForce : Vec2) (normalizedContainerWidth : ℚ) (isExploded : Bool)
    (potentialEnergy : ℚ) : WallForceResult :=
  let xr := calculateWallForceX position.x position.y containerWidth
    normalizedContainerWidth isExploded resultantForce.x potentialEnergy
  let yr := calculateWallForceY xr.xPos xr.xPosIsInfinite position.y
    containerWidth containerHeight isExploded resultantForce.y
    xr.potentialEnergy
  ⟨⟨xr.forceX, yr.forceY⟩, yr.potentialEnergy, yr.isExploded⟩

/-- The comparison `comPositions[i].distance(comPositions[j]) <
SAFE_INTER_MOLECULE_DISTANCE` from `updateMoleculeSafety` (line 185).  The
source compares the Euclidean distance with 2.0; comparing the squared
distance with 4 is exactly equivalent and keeps the embedding rational. -/
def tooCloseToSafe (p q : Vec2) : Prop :=
  (p.x - q.x) ^ 2 + (p.y - q.y) ^ 2 <
    SAFE_INTER_MOLECULE_DISTANCE ^ 2

instance (p q : Vec2) : Decidable (tooCloseToSafe p q) := by
  unfold tooCloseToSafe
  infer_instance

/-- The molecule-record swap performed by `updateMoleculeSafety` when a
molecule becomes safe (lines 199-229): the `atomsPerMolecule`-wide atom
blocks and the per-molecule centre of mass, velocity, force, rotation angle
and rotation rate at indices `a` and `b` are exchanged.  Torques and next
forces are deliberately not swapped, matching the source. -/
def swapMoleculeRecords (ds : MoleculeForceAndMotionDataSet) (a b : ℕ) :
    MoleculeForceAndMotionDataSet :=
  let apm := ds.atomsPerMolecule
  let swapQ : (ℕ → ℚ) → (ℕ → ℚ) := fun f k =>
    if k = a then f b else if k = b then f a else f k
  let swapV : (ℕ → Vec2) → (ℕ → Vec2) := fun f k =>
    if k = a then f b else if k = b then f a else f k
  { ds with
    atomPositions := fun k =>
      if a * apm ≤ k ∧ k < a * apm + apm then
        ds.atomPositions (b * apm + (k - a * apm))
      else if b * apm ≤ k ∧ k < b * apm + apm then
        ds.atomPositions (a * apm + (k - b * apm))
      else ds.atomPositions k
    moleculeCenterOfMassPositions := swapV ds.moleculeCenterOfMassPositions
    moleculeVelocities := swapV ds.moleculeVelocities
    moleculeForces := swapV ds.moleculeForces
    moleculeRotationAngles := swapQ ds.moleculeRotationAngles
    moleculeRotationRates := swapQ ds.moleculeRotationRates }

/-- One iteration of the outer loop of `updateMoleculeSafety` for loop index
`i`: if molecule `i` is at a safe distance from every molecule of the current
safe prefix `[0, numberOfSafeMolecules)`, swap it (when necessary) into the
slot just after the prefix and increment `numberOfSafeMolecules`. -/
def safetyStep (ds : MoleculeForceAndMotionDataSet) (i : ℕ) :
    MoleculeForceAndMotionDataSet :=
  let ns := ds.numberOfSafeMolecules
  let moleculeIsUnsafe := (List.range ns).any (fun j =>
    decide (tooCloseToSafe (ds.moleculeCenterOfMassPositions i)
      (ds.moleculeCenterOfMassPositions j)))
  if moleculeIsUnsafe then ds
  else
    let ds2 := if i ≠ ns then swapMoleculeRecords ds ns i else ds
    { ds2 with numberOfSafeMolecules := ns + 1 }

/-- `updateMoleculeSafety` (source lines 159-237).  The outer loop runs `i`
from the initial `numberOfSafeMolecules` to `numberOfMolecules − 1`, with the
local safe count (mirrored into the data set on every increment) carried
through the iterations.  The early return when every molecule is already
safe is the source's `numberOfMolecules === numberOfSafeMolecules` check. -/
def updateMoleculeSafety (ds : MoleculeForceAndMotionDataSet) :
    MoleculeForceAndMotionDataSet :=
  let numberOfMolecules := ds.getNumberOfMolecules
  if numberOfMolecules = ds.numberOfSafeMolecules then ds
  else
    (List.range' ds.numberOfSafeMolecules
      (numberOfMolecules - ds.numberOfSafeMolecules)).foldl safetyStep ds

/-- `updatePressure` (source lines 239-254).  Takes the model's explosion
flag, the normalized container width and height, the calculator's previous
pressure and the summed wall force; returns the new pressure and the new
explosion flag (`explodeContainer` sets the flag when the new pressure
exceeds `EXPLOSION_PRESSURE`). -/
def updatePressure (isExploded : Bool)
    (normalizedContainerWidth normalizedContainerHeight : ℚ)
    (pressure pressureZoneWallForce : ℚ) : ℚ × Bool :=
  if isExploded = true then
    -- If the container has exploded, there is essentially no pressure.
    (0, isExploded)
  else
    let newPressure :=
      (1 - PRESSURE_CALC_WEIGHTING) *
        (pressureZoneWallForce /
          (normalizedContainerWidth + normalizedContainerHeight)) +
      PRESSURE_CALC_WEIGHTING * pressure
    if newPressure > EXPLOSION_PRESSURE ∧ isExploded = false then
      (newPressure, true)
    else
      (newPressure, isExploded)

end AbstractVerletAlgorithm

/-! ## The orchestrator (`src/js/model/MultipleParticleModel.js`) -/

namespace MultipleParticleModel

/-- `LIQUID_TEMPERATURE = 0.34` (source line 30). -/
def LIQUID_TEMPERATURE : ℚ := 34 / 100

/-- `MAX_TEMPERATURE = 50.0` (source line 36). -/
def MAX_TEMPERATURE : ℚ := 50

/-- `MIN_TEMPERATURE = 0.0001` (source line 37). -/
def MIN_TEMPERATURE : ℚ := 1 / 10000

/-- `MAX_GRAVITATIONAL_ACCEL = 0.4` (source line 39). -/
def MAX_GRAVITATIONAL_ACCEL : ℚ := 4 / 10

/-- `TEMPERATURE_CLOSENESS_RANGE = 0.15` (source line 70). -/
def TEMPERATURE_CLOSENESS_RANGE : ℚ := 15 / 100

/-- `NO_THERMOSTAT = 0` (source line 55). -/
def NO_THERMOSTAT : ℕ := 0

/-- `ISOKINETIC_THERMOSTAT = 1` (source line 56). -/
def ISOKINETIC_THERMOSTAT : ℕ := 1

/-- `ANDERSEN_THERMOSTAT = 2` (source line 57). -/
def ANDERSEN_THERMOSTAT : ℕ := 2

/-- `ADAPTIVE_THERMOSTAT = 3` (source line 58). -/
def ADAPTIVE_THERMOSTAT : ℕ := 3

/-- The model state read and written by the operations verified here.  The
strategy objects (calculator, thermostats, phase changer) are owned by the
model; only the fields the embedded operations touch are represented. -/
structure Model where
  moleculeDataSet : MoleculeForceAndMotionDataSet
  temperatureSetPoint : ℚ
  isoKineticThermostatTargetTemperature : ℚ
  andersenThermostatTargetTemperature : ℚ
  gravitationalAcceleration : ℚ
  isExploded : Bool
  heatingCoolingAmount : ℚ
  thermostatType : ℕ
  heightChangeCounter : ℕ
  normalizedContainerWidth : ℚ
  normalizedContainerHeight : ℚ

/-- `setTemperature` (source lines 262-280).  The stored set point is clamped
to `[MIN_TEMPERATURE, MAX_TEMPERATURE]`, but both thermostats receive the
raw, unclamped `newTemperature` as their target temperature. -/
def setTemperature (m : Model) (newTemperature : ℚ) : Model :=
  let setPoint :=
    if newTemperature > MAX_TEMPERATURE then MAX_TEMPERATURE
    else if newTemperature < MIN_TEMPERATURE then MIN_TEMPERATURE
    else newTemperature
  { m with
    temperatureSetPoint := setPoint
    isoKineticThermostatTargetTemperature := newTemperature
    andersenThermostatTargetTemperature := newTemperature }

/-- `setGravitationalAcceleration` (source lines 289-301).  An out-of-range
argument throws an `Error`; the assignment that follows each `throw` is
unreachable, so the model is returned unmodified inside the `Except.error`.
An in-range argument stores the value. -/
def setGravitationalAcceleration (m : Model) (acceleration : ℚ) :
    Except String Model :=
  if acceleration > MAX_GRAVITATIONAL_ACCEL then
    Except.error
      "WARNING: Attempt to set out-of-range value for gravitational acceleration."
  else if acceleration < 0 then
    Except.error
      "WARNING: Attempt to set out-of-range value for gravitational acceleration."
  else
    Except.ok { m with gravitationalAcceleration := acceleration }

/-- `injectMolecule` (source line 473).  The method body in the source is
empty (`injectMolecule: function() {}`), so the call leaves the model
completely unchanged. -/
def injectMolecule (m : Model) : Model := m

/-- Which velocity-adjusting action a `runThermostat` call performs. -/
inductive ThermostatAction where
  | noThermostat : ThermostatAction
  | setTempFromKineticEnergy : ThermostatAction
  | isokinetic : ThermostatAction
  | andersen : ThermostatAction
deriving DecidableEq, Repr

/-- `runThermostat` (source lines 635-678), embodied as the selection of the
action performed on the data set.  `calculatedTemperature` is the
calculator's `temperature` field and `particlesNearTop` the result of the
`particlesNearTop()` helper (called without a receiver in the source; the
intended instance call is modelled).  The else-if chain of the source makes
the four outcomes mutually exclusive. -/
def runThermostatAction (isExploded : Bool)
    (calculatedTemperature temperatureSetPoint heatingCoolingAmount : ℚ)
    (thermostatType : ℕ) (heightChangeCounter : ℕ)
    (particlesNearTop : Bool) : ThermostatAction :=
  if isExploded = true then
    -- Don't bother to run any thermostat if the lid is blown off.
    ThermostatAction.noThermostat
  else
    let temperatureIsChanging : Prop :=
      heatingCoolingAmount ≠ 0 ∨
      temperatureSetPoint + TEMPERATURE_CLOSENESS_RANGE < calculatedTemperature ∨
      temperatureSetPoint - TEMPERATURE_CLOSENESS_RANGE > calculatedTemperature
    if heightChangeCounter ≠ 0 ∧ particlesNearTop = true then
      ThermostatAction.setTempFromKineticEnergy
    else if thermostatType = ISOKINETIC_THERMOSTAT ∨
        (thermostatType = ADAPTIVE_THERMOSTAT ∧
          (temperatureIsChanging ∨ temperatureSetPoint > LIQUID_TEMPERATURE)) then
      ThermostatAction.isokinetic
    else if thermostatType = ANDERSEN_THERMOSTAT ∨
        (thermostatType = ADAPTIVE_THERMOSTAT ∧ ¬temperatureIsChanging) then
      ThermostatAction.andersen
    else
      ThermostatAction.noThermostat

end MultipleParticleModel

/-! ## Concrete states used by witnesses and counterexamples -/

open MoleculeForceAndMotionDataSet AbstractVerletAlgorithm MultipleParticleModel

/-- A concrete monatomic data set holding one molecule, all of it safe. -/
def oneMoleculeDataSet : MoleculeForceAndMotionDataSet where
  atomsPerMolecule := 1
  numberOfAtoms := 1
  numberOfSafeMolecules := 1
  atomPositions := fun _ => ⟨0, 0⟩
  moleculeCenterOfMassPositions := fun _ => ⟨0, 0⟩
  moleculeVelocities := fun _ => ⟨0, 0⟩
  moleculeForces := fun _ => ⟨0, 0⟩
  nextMoleculeForces := fun _ => ⟨0, 0⟩
  moleculeRotationAngles := fun _ => 0
  moleculeRotationRates := fun _ => 0
  moleculeTorques := fun _ => 0
  nextMoleculeTorques := fun _ => 0
  moleculeMass := 1
  moleculeRotationalInertia := 0

/-- A concrete monatomic data set holding no molecules at all. -/
def emptyDataSet : MoleculeForceAndMotionDataSet :=
  { oneMoleculeDataSet with numberOfAtoms := 0, numberOfSafeMolecules := 0 }

/-! ## Lemmas about the data-set operations -/

namespace AbstractVerletAlgorithm

/-- `safetyStep` never changes the atom count or the atoms-per-molecule
count, and increments the safe count by at most one. -/
lemma safetyStep_counts (ds : MoleculeForceAndMotionDataSet) (i : ℕ) :
    (safetyStep ds i).numberOfAtoms = ds.numberOfAtoms ∧
    (safetyStep ds i).atomsPerMolecule = ds.atomsPerMolecule ∧
    ((safetyStep ds i).numberOfSafeMolecules = ds.numberOfSafeMolecules ∨
      (safetyStep ds i).numberOfSafeMolecules = ds.numberOfSafeMolecules + 1) := by
  unfold safetyStep
  dsimp only
  split
  · exact ⟨rfl, rfl, Or.inl rfl⟩
  · refine ⟨?_, ?_, Or.inr rfl⟩ <;> (split <;> rfl)

/-- Folding `safetyStep` over the loop indices keeps the atom counts and
bounds the final safe count by the last index examined plus one. -/
lemma foldl_safetyStep_counts :
    ∀ (len start : ℕ) (ds : MoleculeForceAndMotionDataSet),
      ds.numberOfSafeMolecules ≤ start →
      ((List.range' start len).foldl safetyStep ds).numberOfAtoms =
          ds.numberOfAtoms ∧
      ((List.range' start len).foldl safetyStep ds).atomsPerMolecule =
          ds.atomsPerMolecule ∧
      ((List.range' start len).foldl safetyStep ds).numberOfSafeMolecules ≤
          start + len := by
  intro len
  induction len with
  | zero =>
    intro start ds h
    simpa using h
  | succ n ih =>
    intro start ds h
    rw [List.range'_succ]
    simp only [List.foldl_cons]
    obtain ⟨h1, h2, h3⟩ := safetyStep_counts ds start
    obtain ⟨g1, g2, g3⟩ := ih (start + 1) (safetyStep ds start)
      (by rcases h3 with h3 | h3 <;> omega)
    refine ⟨g1.trans h1, g2.trans h2, by omega⟩

/-- `updateMoleculeSafety` preserves the data-set invariant. -/
lemma updateMoleculeSafety_invariant (ds : MoleculeForceAndMotionDataSet)
    (h : ds.Invariant) : (updateMoleculeSafety ds).Invariant := by
  obtain ⟨h1, h2, h3⟩ := h
  unfold updateMoleculeSafety
  dsimp only
  split
  · exact ⟨h1, h2, h3⟩
  · obtain ⟨g1, g2, g3⟩ :=
      foldl_safetyStep_counts (ds.getNumberOfMolecules - ds.numberOfSafeMolecules)
        ds.numberOfSafeMolecules ds le_rfl
    simp only [MoleculeForceAndMotionDataSet.Invariant,
      MoleculeForceAndMotionDataSet.getNumberOfMolecules] at h2 h3 g1 g2 g3 ⊢
    rw [g1, g2]
    exact ⟨h1, h2, le_trans g3 (le_of_eq (Nat.add_sub_cancel' h3))⟩

end AbstractVerletAlgorithm

namespace MoleculeForceAndMotionDataSet

/-- `addMolecule` preserves the data-set invariant. -/
lemma addMolecule_invariant (MAX_NUM_ATOMS : ℕ)
    (ds : MoleculeForceAndMotionDataSet) (aps : ℕ → Vec2) (com vel : Vec2)
    (rot : ℚ) (h : ds.Invariant) :
    (addMolecule MAX_NUM_ATOMS ds aps com vel rot).2.Invariant := by
  obtain ⟨h1, h2, h3⟩ := h
  unfold addMolecule
  split
  · exact ⟨h1, h2, h3⟩
  · refine ⟨h1, ?_, ?_⟩
    · show ds.numberOfAtoms + ds.atomsPerMolecule =
        ds.atomsPerMolecule *
          ((ds.numberOfAtoms + ds.atomsPerMolecule) / ds.atomsPerMolecule)
      rw [Nat.add_div_right _ h1, Nat.mul_succ]
      unfold getNumberOfMolecules at h2
      omega
    · show ds.numberOfSafeMolecules ≤
        (ds.numberOfAtoms + ds.atomsPerMolecule) / ds.atomsPerMolecule
      rw [Nat.add_div_right _ h1]
      unfold getNumberOfMolecules at h3
      omega

/-- `removeMolecule` preserves `atomsPerMolecule` positivity and the exact
relation `numberOfAtoms = atomsPerMolecule × numberOfMolecules`. -/
lemma removeMolecule_counts (ds : MoleculeForceAndMotionDataSet) (i : ℕ)
    (h : ds.Invariant) :
    0 < (ds.removeMolecule i).atomsPerMolecule ∧
    (ds.removeMolecule i).numberOfAtoms =
      (ds.removeMolecule i).atomsPerMolecule *
        (ds.removeMolecule i).getNumberOfMolecules := by
  obtain ⟨h1, h2, h3⟩ := h
  unfold removeMolecule
  split
  · exact ⟨h1, h2⟩
  · rename_i hlt
    push_neg at hlt
    refine ⟨h1, ?_⟩
    show ds.numberOfAtoms - ds.atomsPerMolecule =
      ds.atomsPerMolecule *
        ((ds.numberOfAtoms - ds.atomsPerMolecule) / ds.atomsPerMolecule)
    unfold getNumberOfMolecules at h2
    have hge : ds.atomsPerMolecule ≤ ds.numberOfAtoms := by
      have : 1 ≤ ds.numberOfAtoms / ds.atomsPerMolecule := by omega
      calc ds.atomsPerMolecule = ds.atomsPerMolecule * 1 := by ring
        _ ≤ ds.atomsPerMolecule * (ds.numberOfAtoms / ds.atomsPerMolecule) :=
            Nat.mul_le_mul_left _ this
        _ = ds.numberOfAtoms := h2.symm
    have hdvd : ds.atomsPerMolecule ∣ ds.numberOfAtoms - ds.atomsPerMolecule :=
      Nat.dvd_sub' ⟨_, h2⟩ dvd_rfl
    exact (Nat.mul_div_cancel' hdvd).symm

end MoleculeForceAndMotionDataSet

/-! ## Claim C1 -/

/-- Counterexample to claim C1 as stated: the one-molecule data set with all
molecules safe satisfies the invariant, but `removeMolecule 0` removes the
molecule without touching `numberOfSafeMolecules`, leaving
`numberOfSafeMolecules = 1 > 0 = numberOfMolecules`. -/
theorem removeMolecule_breaks_invariant :
    oneMoleculeDataSet.Invariant ∧
    ¬ (oneMoleculeDataSet.removeMolecule 0).Invariant := by
  constructor
  · decide
  · intro h
    have h3 := h.2.2
    revert h3
    decide

/-- C1 (amended): `addMolecule` and `updateMoleculeSafety` preserve the full
data-set invariant (`numberOfAtoms = atomsPerMolecule × numberOfMolecules`
and `0 ≤ numberOfSafeMolecules ≤ numberOfMolecules`); `removeMolecule`
preserves `numberOfAtoms = atomsPerMolecule × numberOfMolecules` but leaves
`numberOfSafeMolecules` unchanged, so it can exceed `numberOfMolecules`. -/
theorem dataSetOperations_preserve_invariant (MAX_NUM_ATOMS : ℕ)
    (ds : MoleculeForceAndMotionDataSet) (aps : ℕ → Vec2) (com vel : Vec2)
    (rot : ℚ) (i : ℕ) (h : ds.Invariant) :
    (addMolecule MAX_NUM_ATOMS ds aps com vel rot).2.Invariant ∧
    (updateMoleculeSafety ds).Invariant ∧
    (0 < (ds.removeMolecule i).atomsPerMolecule ∧
      (ds.removeMolecule i).numberOfAtoms =
        (ds.removeMolecule i).atomsPerMolecule *
          (ds.removeMolecule i).getNumberOfMolecules ∧
      (ds.removeMolecule i).numberOfSafeMolecules =
        ds.numberOfSafeMolecules) :=
  ⟨MoleculeForceAndMotionDataSet.addMolecule_invariant _ _ _ _ _ _ h,
   AbstractVerletAlgorithm.updateMoleculeSafety_invariant _ h,
   (MoleculeForceAndMotionDataSet.removeMolecule_counts _ i h).1,
   (MoleculeForceAndMotionDataSet.removeMolecule_counts _ i h).2,
   by unfold MoleculeForceAndMotionDataSet.removeMolecule; split <;> rfl⟩

/-- Witness for the amended C1 at a concrete data set. -/
theorem dataSetOperations_preserve_invariant_witness :
    oneMoleculeDataSet.Invariant ∧
    (addMolecule 2 oneMoleculeDataSet (fun _ => ⟨0, 0⟩) ⟨0, 0⟩ ⟨0, 0⟩
        0).2.Invariant ∧
    (updateMoleculeSafety oneMoleculeDataSet).Invariant :=
  ⟨by decide,
   (dataSetOperations_preserve_invariant 2 oneMoleculeDataSet
      (fun _ => ⟨0, 0⟩) ⟨0, 0⟩ ⟨0, 0⟩ 0 0 (by decide)).1,
   (dataSetOperations_preserve_invariant 2 oneMoleculeDataSet
      (fun _ => ⟨0, 0⟩) ⟨0, 0⟩ ⟨0, 0⟩ 0 0 (by decide)).2.1⟩

/-! ## Claim C4 -/

/-- C4: with no remaining slots `addMolecule` returns `false` and leaves the
data set untouched; otherwise it returns `true`, appends the incoming atom
positions after the existing atoms, stores the centre of mass, velocity and
rotation rate at the fresh molecule index, grows `numberOfAtoms` by
`atomsPerMolecule`, and leaves `numberOfSafeMolecules` unchanged. -/
theorem addMolecule_spec (MAX_NUM_ATOMS : ℕ)
    (ds : MoleculeForceAndMotionDataSet) (aps : ℕ → Vec2) (com vel : Vec2)
    (rot : ℚ) :
    (getNumberOfRemainingSlots MAX_NUM_ATOMS ds = 0 →
      addMolecule MAX_NUM_ATOMS ds aps com vel rot = (false, ds)) ∧
    (getNumberOfRemainingSlots MAX_NUM_ATOMS ds ≠ 0 →
      (addMolecule MAX_NUM_ATOMS ds aps com vel rot).1 = true ∧
      (addMolecule MAX_NUM_ATOMS ds aps com vel rot).2.numberOfAtoms =
        ds.numberOfAtoms + ds.atomsPerMolecule ∧
      (addMolecule MAX_NUM_ATOMS ds aps com vel rot).2.numberOfSafeMolecules =
        ds.numberOfSafeMolecules ∧
      (∀ i, i < ds.atomsPerMolecule →
        (addMolecule MAX_NUM_ATOMS ds aps com vel rot).2.atomPositions
          (ds.numberOfAtoms + i) = aps i) ∧
      (addMolecule MAX_NUM_ATOMS ds aps com vel
          rot).2.moleculeCenterOfMassPositions ds.getNumberOfMolecules = com ∧
      (addMolecule MAX_NUM_ATOMS ds aps com vel rot).2.moleculeVelocities
        ds.getNumberOfMolecules = vel ∧
      (addMolecule MAX_NUM_ATOMS ds aps com vel rot).2.moleculeRotationRates
        ds.getNumberOfMolecules = rot) := by
  constructor
  · intro h
    unfold addMolecule
    rw [if_pos h]
  · intro h
    unfold addMolecule
    rw [if_neg h]
    refine ⟨rfl, rfl, rfl, ?_, ?_, ?_, ?_⟩
    · intro i hi
      show (if ds.numberOfAtoms ≤ ds.numberOfAtoms + i ∧
          ds.numberOfAtoms + i < ds.numberOfAtoms + ds.atomsPerMolecule
        then aps (ds.numberOfAtoms + i - ds.numberOfAtoms)
        else ds.atomPositions (ds.numberOfAtoms + i)) = aps i
      rw [if_pos ⟨Nat.le_add_right _ _, by omega⟩]
      congr 1
      omega
    · show (if ds.getNumberOfMolecules = ds.numberOfAtoms / ds.atomsPerMolecule
        then com else _) = com
      exact if_pos rfl
    · show (if ds.getNumberOfMolecules = ds.numberOfAtoms / ds.atomsPerMolecule
        then vel else _) = vel
      exact if_pos rfl
    · show (if ds.getNumberOfMolecules = ds.numberOfAtoms / ds.atomsPerMolecule
        then rot else _) = rot
      exact if_pos rfl

/-- Witness for C4: a full data set rejects the molecule unchanged, and a
data set with capacity accepts it. -/
theorem addMolecule_spec_witness :
    (getNumberOfRemainingSlots 1 oneMoleculeDataSet = 0 ∧
      addMolecule 1 oneMoleculeDataSet (fun _ => ⟨3, 4⟩) ⟨3, 4⟩ ⟨1, 1⟩ 0 =
        (false, oneMoleculeDataSet)) ∧
    (getNumberOfRemainingSlots 2 oneMoleculeDataSet ≠ 0 ∧
      (addMolecule 2 oneMoleculeDataSet (fun _ => ⟨3, 4⟩) ⟨3, 4⟩ ⟨1, 1⟩ 0).1 =
        true ∧
      (addMolecule 2 oneMoleculeDataSet (fun _ => ⟨3, 4⟩) ⟨3, 4⟩ ⟨1, 1⟩
          0).2.numberOfAtoms = oneMoleculeDataSet.numberOfAtoms + 1 ∧
      (addMolecule 2 oneMoleculeDataSet (fun _ => ⟨3, 4⟩) ⟨3, 4⟩ ⟨1, 1⟩
          0).2.numberOfSafeMolecules = 1) :=
  ⟨⟨by decide,
    (addMolecule_spec 1 oneMoleculeDataSet (fun _ => ⟨3, 4⟩) ⟨3, 4⟩ ⟨1, 1⟩
        0).1 (by decide)⟩,
   ⟨by decide,
    ((addMolecule_spec 2 oneMoleculeDataSet (fun _ => ⟨3, 4⟩) ⟨3, 4⟩ ⟨1, 1⟩
        0).2 (by decide)).1,
    ((addMolecule_spec 2 oneMoleculeDataSet (fun _ => ⟨3, 4⟩) ⟨3, 4⟩ ⟨1, 1⟩
        0).2 (by decide)).2.1,
    ((addMolecule_spec 2 oneMoleculeDataSet (fun _ => ⟨3, 4⟩) ⟨3, 4⟩ ⟨1, 1⟩
        0).2 (by decide)).2.2.1⟩⟩

/-! ## Claim C8 -/

/-- Counterexample to claim C8 as stated: on the empty data set the source
evaluates `translationalKineticEnergy / this.numberOfAtoms` as `0 / 0`, a
`NaN` (`none` in the embedding), not the finite value `0`. -/
theorem temperatureOfEmptyDataSet_not_zero :
    ¬ calculateTemperatureFromKineticEnergy emptyDataSet = some 0 := by
  decide

/-- C8 (amended): for every data set with `numberOfAtoms = 0` (and a positive
`atomsPerMolecule`, as guaranteed by the constructor),
`calculateTemperatureFromKineticEnergy` divides zero kinetic energy by the
zero atom or molecule count and therefore yields `NaN` (`none`), not 0. -/
theorem temperatureOfEmptyDataSet_isNaN (ds : MoleculeForceAndMotionDataSet)
    (_hapm : 0 < ds.atomsPerMolecule) (h0 : ds.numberOfAtoms = 0) :
    calculateTemperatureFromKineticEnergy ds = none := by
  unfold calculateTemperatureFromKineticEnergy
  dsimp only
  rw [h0]
  split
  · simp [jsDiv]
  · simp [jsDiv, Nat.zero_div]

/-- Witness for the amended C8 at the concrete empty data set. -/
theorem temperatureOfEmptyDataSet_isNaN_witness :
    0 < emptyDataSet.atomsPerMolecule ∧ emptyDataSet.numberOfAtoms = 0 ∧
    calculateTemperatureFromKineticEnergy emptyDataSet = none :=
  ⟨by decide, by decide,
   temperatureOfEmptyDataSet_isNaN emptyDataSet (by decide) (by decide)⟩

/-! ## Claim C2 -/

/-- C2: when the model is exploded `updatePressure` zeroes the pressure;
otherwise the new pressure is the exponential moving average
`(1 − 0.999)·(wallForceSum / (normalizedContainerWidth +
normalizedContainerHeight)) + 0.999·pressure`, and the container explodes
exactly when this new pressure exceeds `EXPLOSION_PRESSURE`. -/
theorem updatePressure_spec (w h p f : ℚ) :
    updatePressure true w h p f = (0, true) ∧
    (updatePressure false w h p f).1 =
      (1 - PRESSURE_CALC_WEIGHTING) * (f / (w + h)) +
        PRESSURE_CALC_WEIGHTING * p ∧
    ((updatePressure false w h p f).1 > EXPLOSION_PRESSURE →
      (updatePressure false w h p f).2 = true) ∧
    ((updatePressure false w h p f).1 ≤ EXPLOSION_PRESSURE →
      (updatePressure false w h p f).2 = false) := by
  refine ⟨rfl, ?_, ?_, ?_⟩
  · show (if _ > EXPLOSION_PRESSURE ∧ (false : Bool) = false
        then ((1 - PRESSURE_CALC_WEIGHTING) * (f / (w + h)) +
          PRESSURE_CALC_WEIGHTING * p, true)
        else ((1 - PRESSURE_CALC_WEIGHTING) * (f / (w + h)) +
          PRESSURE_CALC_WEIGHTING * p, false)).1 =
      (1 - PRESSURE_CALC_WEIGHTING) * (f / (w + h)) +
        PRESSURE_CALC_WEIGHTING * p
    split <;> rfl
  · intro hgt
    unfold updatePressure at hgt ⊢
    dsimp only at hgt ⊢
    rw [if_neg (Bool.false_ne_true)] at hgt ⊢
    split at hgt
    · rename_i hcond
      rw [if_pos hcond]
    · rename_i hcond
      rw [if_neg hcond]
      dsimp only at hgt
      exact absurd ⟨hgt, rfl⟩ hcond
  · intro hle
    unfold updatePressure at hle ⊢
    dsimp only at hle ⊢
    rw [if_neg (Bool.false_ne_true)] at hle ⊢
    split at hle
    · rename_i hcond
      dsimp only at hle
      exact absurd hcond.1 (not_lt.mpr hle)
    · rename_i hcond
      rw [if_neg hcond]

/-- Witness for C2 at concrete inputs: an exploded call, a quiet call whose
averaged pressure stays below the threshold, and a call whose averaged
pressure crosses it. -/
theorem updatePressure_spec_witness :
    updatePressure true 10 10 1 5 = (0, true) ∧
    (updatePressure false 10 10 0 0).1 = 0 ∧
    ((updatePressure false 10 10 2 0).1 > EXPLOSION_PRESSURE →
      (updatePressure false 10 10 2 0).2 = true) ∧
    ((updatePressure false 10 10 0 0).1 ≤ EXPLOSION_PRESSURE →
      (updatePressure false 10 10 0 0).2 = false) := by
  refine ⟨(updatePressure_spec 10 10 1 5).1, ?_, ?_, ?_⟩
  · rw [(updatePressure_spec 10 10 0 0).2.1]
    norm_num [PRESSURE_CALC_WEIGHTING]
  · exact (updatePressure_spec 10 10 2 0).2.2.1
  · exact (updatePressure_spec 10 10 0 0).2.2.2

/-! ## Claim C7 -/

open MultipleParticleModel

/-- A concrete model state used by witnesses. -/
def quietModel : Model where
  moleculeDataSet := oneMoleculeDataSet
  temperatureSetPoint := 15 / 100
  isoKineticThermostatTargetTemperature := 15 / 100
  andersenThermostatTargetTemperature := 15 / 100
  gravitationalAcceleration := 45 / 1000
  isExploded := false
  heatingCoolingAmount := 0
  thermostatType := ADAPTIVE_THERMOSTAT
  heightChangeCounter := 0
  normalizedContainerWidth := 10
  normalizedContainerHeight := 10

/-- C7: an acceleration outside `[0, MAX_GRAVITATIONAL_ACCEL]` makes
`setGravitationalAcceleration` throw, leaving the model unchanged (the clamp
after each `throw` is unreachable); an in-range acceleration is stored
without an error. -/
theorem setGravitationalAcceleration_spec (m : Model) (acceleration : ℚ) :
    (acceleration > MAX_GRAVITATIONAL_ACCEL ∨ acceleration < 0 →
      setGravitationalAcceleration m acceleration =
        Except.error
          "WARNING: Attempt to set out-of-range value for gravitational acceleration.") ∧
    (0 ≤ acceleration → acceleration ≤ MAX_GRAVITATIONAL_ACCEL →
      setGravitationalAcceleration m acceleration =
        Except.ok { m with gravitationalAcceleration := acceleration }) := by
  constructor
  · intro hout
    unfold setGravitationalAcceleration
    rcases hout with hgt | hlt
    · rw [if_pos hgt]
    · rcases lt_or_le MAX_GRAVITATIONAL_ACCEL acceleration with hgt | hle
      · rw [if_pos hgt]
      · rw [if_neg (not_lt.mpr hle), if_pos hlt]
  · intro h0 hmax
    unfold setGravitationalAcceleration
    rw [if_neg (not_lt.mpr hmax), if_neg (not_lt.mpr h0)]

/-- Witness for C7: a too-large, a negative, and an in-range acceleration. -/
theorem setGravitationalAcceleration_spec_witness :
    setGravitationalAcceleration quietModel 1 =
      Except.error
        "WARNING: Attempt to set out-of-range value for gravitational acceleration." ∧
    setGravitationalAcceleration quietModel (-1) =
      Except.error
        "WARNING: Attempt to set out-of-range value for gravitational acceleration." ∧
    setGravitationalAcceleration quietModel (1 / 10) =
      Except.ok { quietModel with gravitationalAcceleration := 1 / 10 } :=
  ⟨(setGravitationalAcceleration_spec quietModel 1).1
      (Or.inl (by norm_num [MAX_GRAVITATIONAL_ACCEL])),
   (setGravitationalAcceleration_spec quietModel (-1)).1
      (Or.inr (by norm_num)),
   (setGravitationalAcceleration_spec quietModel (1 / 10)).2 (by norm_num)
      (by norm_num [MAX_GRAVITATIONAL_ACCEL])⟩

/-! ## Claim C9 -/

/-- C9: `setTemperature` clamps the stored set point into
`[MIN_TEMPERATURE, MAX_TEMPERATURE]` but hands the raw input to both
thermostats as their target, so an out-of-range input leaves both thermostat
targets different from the model's set point. -/
theorem setTemperature_spec (m : Model) (newTemperature : ℚ) :
    MIN_TEMPERATURE ≤ (setTemperature m newTemperature).temperatureSetPoint ∧
    (setTemperature m newTemperature).temperatureSetPoint ≤ MAX_TEMPERATURE ∧
    (MIN_TEMPERATURE ≤ newTemperature → newTemperature ≤ MAX_TEMPERATURE →
      (setTemperature m newTemperature).temperatureSetPoint = newTemperature) ∧
    (setTemperature m newTemperature).isoKineticThermostatTargetTemperature =
      newTemperature ∧
    (setTemperature m newTemperature).andersenThermostatTargetTemperature =
      newTemperature ∧
    (newTemperature > MAX_TEMPERATURE ∨ newTemperature < MIN_TEMPERATURE →
      (setTemperature m newTemperature).temperatureSetPoint ≠
          (setTemperature m newTemperature).isoKineticThermostatTargetTemperature ∧
        (setTemperature m newTemperature).temperatureSetPoint ≠
          (setTemperature m newTemperature).andersenThermostatTargetTemperature) := by
  have hminmax : MIN_TEMPERATURE < MAX_TEMPERATURE := by
    norm_num [MIN_TEMPERATURE, MAX_TEMPERATURE]
  unfold setTemperature
  dsimp only
  split
  · rename_i hgt
    exact ⟨hminmax.le, le_rfl,
      fun _ hle => absurd hgt (not_lt.mpr hle), rfl, rfl,
      fun _ => ⟨ne_of_lt hgt, ne_of_lt hgt⟩⟩
  · rename_i hngt
    split
    · rename_i hlt
      exact ⟨le_rfl, hminmax.le,
        fun hge _ => absurd hlt (not_lt.mpr hge), rfl, rfl,
        fun _ => ⟨ne_of_gt hlt, ne_of_gt hlt⟩⟩
    · rename_i hnlt
      refine ⟨not_lt.mp hnlt, not_lt.mp hngt, fun _ _ => rfl, rfl, rfl, ?_⟩
      intro hout
      rcases hout with hgt | hlt
      · exact absurd hgt (by exact hngt)
      · exact absurd hlt (by exact hnlt)

/-- Witness for C9: the out-of-range input 100 is clamped to 50 while both
thermostat targets receive 100. -/
theorem setTemperature_spec_witness :
    (setTemperature quietModel 100).isoKineticThermostatTargetTemperature =
        100 ∧
    (setTemperature quietModel 100).temperatureSetPoint ≠
      (setTemperature quietModel 100).isoKineticThermostatTargetTemperature ∧
    (setTemperature quietModel 100).temperatureSetPoint ≠
      (setTemperature quietModel 100).andersenThermostatTargetTemperature :=
  ⟨(setTemperature_spec quietModel 100).2.2.2.1,
   (setTemperature_spec quietModel 100).2.2.2.2.2
      (Or.inl (by norm_num [MAX_TEMPERATURE]))⟩

/-! ## Claim C3 -/

namespace AbstractVerletAlgorithm

/-- The vertical wall-force block triggers the explosion whenever the
particle is below `y = 0` and the container has not yet exploded. -/
lemma calculateWallForceY_explodes_below_zero (xp : ℚ) (xinf : Bool)
    (yPos w hgt fy pe : ℚ) (hy : yPos < 0) :
    (calculateWallForceY xp xinf yPos w hgt false fy pe).isExploded = true := by
  unfold calculateWallForceY
  dsimp only
  have hthresh : yPos < WALL_DISTANCE_THRESHOLD :=
    lt_trans hy (by norm_num [WALL_DISTANCE_THRESHOLD])
  have hmin : yPos < MIN_WALL_DISTANCE :=
    lt_trans hy (by norm_num [MIN_WALL_DISTANCE, WALL_DISTANCE_THRESHOLD])
  have hcond : (if yPos < MIN_WALL_DISTANCE ∧ yPos < 0 ∧ (false : Bool) = false
      then true else (false : Bool)) = true := if_pos ⟨hmin, hy, rfl⟩
  rw [if_pos hthresh, hcond]
  split <;> rfl

end AbstractVerletAlgorithm

/-- C3: a particle strictly below `y = 0` evaluated by `calculateWallForce`
while the model is not exploded leaves the model exploded. -/
theorem calculateWallForce_explodes_below_zero (position : Vec2)
    (containerWidth containerHeight : ℚ) (resultantForce : Vec2)
    (normalizedContainerWidth potentialEnergy : ℚ)
    (hy : position.y < 0) :
    (calculateWallForce position containerWidth containerHeight resultantForce
        normalizedContainerWidth false potentialEnergy).isExploded = true := by
  unfold calculateWallForce
  exact AbstractVerletAlgorithm.calculateWallForceY_explodes_below_zero
    _ _ _ _ _ _ _ hy

/-- Witness for C3: a particle at `(5, −1)` in a quiet container explodes
the model. -/
theorem calculateWallForce_explodes_below_zero_witness :
    (-1 : ℚ) < 0 ∧
    (calculateWallForce ⟨5, -1⟩ 10 10 ⟨0, 0⟩ 10 false 0).isExploded = true :=
  ⟨by norm_num,
   calculateWallForce_explodes_below_zero ⟨5, -1⟩ 10 10 ⟨0, 0⟩ 10 0
     (by norm_num)⟩

/-! ## Claim C10 -/

/-- C10: when the particle's y-coordinate is at or above
`normalizedContainerWidth`, the horizontal block of `calculateWallForce` is
skipped entirely: the x force component is the unchanged input component and
the whole result coincides with running only the vertical block, so no
horizontal force or potential-energy contribution is applied however close
the particle is to a side wall. -/
theorem calculateWallForce_no_x_force_above_width (position : Vec2)
    (containerWidth containerHeight : ℚ) (resultantForce : Vec2)
    (normalizedContainerWidth : ℚ) (isExploded : Bool) (potentialEnergy : ℚ)
    (h : ¬ position.y < normalizedContainerWidth) :
    (calculateWallForce position containerWidth containerHeight resultantForce
        normalizedContainerWidth isExploded potentialEnergy).resultantForce.x =
      resultantForce.x ∧
    calculateWallForce position containerWidth containerHeight resultantForce
        normalizedContainerWidth isExploded potentialEnergy =
      ⟨⟨resultantForce.x,
        (calculateWallForceY position.x false position.y containerWidth
          containerHeight isExploded resultantForce.y potentialEnergy).forceY⟩,
       (calculateWallForceY position.x false position.y containerWidth
          containerHeight isExploded resultantForce.y
          potentialEnergy).potentialEnergy,
       (calculateWallForceY position.x false position.y containerWidth
          containerHeight isExploded resultantForce.y
          potentialEnergy).isExploded⟩ := by
  have hx : calculateWallForceX position.x position.y containerWidth
      normalizedContainerWidth isExploded resultantForce.x potentialEnergy =
      ⟨resultantForce.x, potentialEnergy, position.x, false⟩ := by
    unfold calculateWallForceX
    rw [if_neg h]
  unfold calculateWallForce
  rw [hx]
  exact ⟨rfl, rfl⟩

/-- Witness for C10: a particle hugging the left wall (`x = 1/2`) but above
the width bound feels no horizontal force. -/
theorem calculateWallForce_no_x_force_above_width_witness :
    ¬ ((20 : ℚ) < 10) ∧
    (calculateWallForce ⟨1 / 2, 20⟩ 10 30 ⟨0, 0⟩ 10 false 0).resultantForce.x =
      (0 : ℚ) :=
  ⟨by norm_num,
   (calculateWallForce_no_x_force_above_width ⟨1 / 2, 20⟩ 10 30 ⟨0, 0⟩ 10
      false 0 (by norm_num)).1⟩

/-! ## Claim C5 -/

/-- C5: `runThermostat` never runs both thermostats in one call — the
selected action is unique by the else-if chain — and an exploded container
runs no thermostat at all. -/
theorem runThermostat_at_most_one (isExploded : Bool)
    (calculatedTemperature temperatureSetPoint heatingCoolingAmount : ℚ)
    (thermostatType heightChangeCounter : ℕ) (particlesNearTop : Bool) :
    (isExploded = true →
      runThermostatAction isExploded calculatedTemperature temperatureSetPoint
          heatingCoolingAmount thermostatType heightChangeCounter
          particlesNearTop = ThermostatAction.noThermostat) ∧
    ¬ (runThermostatAction isExploded calculatedTemperature temperatureSetPoint
          heatingCoolingAmount thermostatType heightChangeCounter
          particlesNearTop = ThermostatAction.isokinetic ∧
       runThermostatAction isExploded calculatedTemperature temperatureSetPoint
          heatingCoolingAmount thermostatType heightChangeCounter
          particlesNearTop = ThermostatAction.andersen) := by
  constructor
  · intro h
    unfold runThermostatAction
    rw [if_pos h]
  · rintro ⟨h1, h2⟩
    rw [h1] at h2
    exact ThermostatAction.noConfusion h2

/-- Witness for C5: an exploded model with the adaptive thermostat selected
runs no thermostat. -/
theorem runThermostat_at_most_one_witness :
    runThermostatAction true (15 / 100) (15 / 100) 0 ADAPTIVE_THERMOSTAT 0
        false = ThermostatAction.noThermostat ∧
    ¬ (runThermostatAction true (15 / 100) (15 / 100) 0 ADAPTIVE_THERMOSTAT 0
          false = ThermostatAction.isokinetic ∧
       runThermostatAction true (15 / 100) (15 / 100) 0 ADAPTIVE_THERMOSTAT 0
          false = ThermostatAction.andersen) :=
  ⟨(runThermostat_at_most_one true (15 / 100) (15 / 100) 0
      ADAPTIVE_THERMOSTAT 0 false).1 rfl,
   (runThermostat_at_most_one true (15 / 100) (15 / 100) 0
      ADAPTIVE_THERMOSTAT 0 false).2⟩

/-! ## Claim C6 -/

/-- C6: the body of `injectMolecule` in the source is empty, so the call
changes nothing — in particular no molecule is added even when remaining
capacity exists.  This contradicts the method's own documentation ("Inject a
new molecule of the current type into the model"). -/
theorem injectMolecule_is_noop (m : Model) :
    injectMolecule m = m ∧
    (injectMolecule m).moleculeDataSet.numberOfAtoms =
      m.moleculeDataSet.numberOfAtoms :=
  ⟨rfl, rfl⟩
